import Mathlib

/-!
Shallow embedding of `src/session-backend/index.ts` from
`drifting-in-space/openai-assistant-demo`: the session backend of a
collaborative whiteboard driven by an external assistant service.

Conventions of the embedding:
* JavaScript numbers are modelled by `JSNum`: a finite rational, `NaN`,
  or an infinity.  The claims only store and compare coordinates, so no
  floating-point arithmetic is needed.
* A possibly-`undefined` (or `null`) JavaScript value of number type is
  `Option JSNum`; `none` stands for `undefined`/`null`.
* Exceptions thrown by the tool handlers are modelled with
  `Except String`, carrying the `Error` message.
* The asynchronous interaction with the external service is modelled by
  an explicit response trace: the successive results of
  `runs.retrieve` / `runs.submitToolOutputs`, each either `Except.ok`
  (a run object) or `Except.error` (the awaited promise rejected).
* `Math.random()` draws are supplied by an oracle list of naturals,
  one potential draw per tool call.
-/

namespace SessionBackend

/-- A JavaScript number: finite (as a rational), `NaN`, or an infinity. -/
inductive JSNum where
  | finite (q : ℚ)
  | nan
  | posInf
  | negInf
deriving DecidableEq, Repr

/-- JavaScript strict equality `===` on numbers: `NaN` is not equal to
anything, including itself. -/
def jsEq : JSNum → JSNum → Bool
  | .finite a, .finite b => a == b
  | .posInf, .posInf => true
  | .negInf, .negInf => true
  | _, _ => false

/-- `Number.isFinite(v)` on a possibly-`undefined` value: true exactly for
finite numbers, false for `undefined`, `NaN` and the infinities. -/
def isFiniteField : Option JSNum → Bool
  | some (.finite _) => true
  | _ => false

/-- A whiteboard shape (`Shape` in `src/types`): a rectangle.  The direct
`update-shape` listener can assign `undefined` to the coordinate fields,
so they are `Option JSNum`. -/
structure Shape where
  id : JSNum
  x : Option JSNum
  y : Option JSNum
  w : Option JSNum
  h : Option JSNum
  color : String
deriving DecidableEq, Repr

/-- The parsed JSON argument payload of a tool call, projected onto the
fields the two handlers read (`toolOutput?.id/x/y/w/h/color`); a field
absent from the payload is `none`. -/
structure ToolArgs where
  id : Option JSNum
  x : Option JSNum
  y : Option JSNum
  w : Option JSNum
  h : Option JSNum
  color : Option String
deriving DecidableEq, Repr

/-- The default color literal used by `createShape`. -/
def defaultColor : String := "hsl(0, 0%, 0%)"

/-- Models `Math.floor(Math.random() * 100000)`: the oracle `r` stands for
the random draw; the result always lies in `[0, 100000)`. -/
def genId (r : ℕ) : ℕ := r % 100000

/-- `functions.createShape` (lines 233-252): validates that `x`, `y`, `w`,
`h` are finite numbers (throwing `'required params were not given'`
otherwise) and appends a freshly generated shape to the shapes array. -/
def createShape (r : ℕ) (toolOutput : ToolArgs) (shapes : List Shape) :
    Except String (List Shape) :=
  if !isFiniteField toolOutput.x || !isFiniteField toolOutput.y
      || !isFiniteField toolOutput.w || !isFiniteField toolOutput.h then
    .error "required params were not given"
  else
    .ok (shapes ++ [{ id := .finite (genId r : ℕ),
                      x := toolOutput.x, y := toolOutput.y,
                      w := toolOutput.w, h := toolOutput.h,
                      color := toolOutput.color.getD defaultColor }])

/-- `shape.id === toolOutput.id`: an absent payload id (`undefined`)
matches no shape, and `NaN` matches nothing either. -/
def idMatches (argId : Option JSNum) (s : Shape) : Bool :=
  match argId with
  | some v => jsEq s.id v
  | none => false

/-- The field updates `editExistingShape` performs on the found shape
(lines 260-264): `editShape.f = toolOutput?.f ?? editShape.f`. -/
def applyEdit (toolOutput : ToolArgs) (editShape : Shape) : Shape :=
  { editShape with
    x := Option.orElse toolOutput.x (fun _ => editShape.x),
    y := Option.orElse toolOutput.y (fun _ => editShape.y),
    w := Option.orElse toolOutput.w (fun _ => editShape.w),
    h := Option.orElse toolOutput.h (fun _ => editShape.h),
    color := toolOutput.color.getD editShape.color }

/-- `shapes.find(...)` followed by in-place mutation: update the first
shape whose id matches, leaving all others untouched; `none` if no
shape matches. -/
def editFirst (toolOutput : ToolArgs) : List Shape → Option (List Shape)
  | [] => none
  | s :: rest =>
    if idMatches toolOutput.id s then some (applyEdit toolOutput s :: rest)
    else (editFirst toolOutput rest).map (fun l => s :: l)

/-- `functions.editExistingShape` (lines 253-265): finds the shape by id
(throwing `'could not find shape'` if absent) and overwrites exactly the
supplied fields. -/
def editExistingShape (toolOutput : ToolArgs) (shapes : List Shape) :
    Except String (List Shape) :=
  match editFirst toolOutput shapes with
  | none => .error "could not find shape"
  | some shapes2 => .ok shapes2

/-- `JSON.stringify` of a member value of number type: `NaN` and the
infinities serialize as `null`. -/
def jsonNum : JSNum → String
  | .finite q => toString q
  | _ => "null"

/-- One optional JSON member: omitted entirely when the value is
`undefined`, as `JSON.stringify` does. -/
def jsonField (name : String) (v : Option JSNum) : List String :=
  match v with
  | some n => ["\"" ++ name ++ "\":" ++ jsonNum n]
  | none => []

/-- `JSON.stringify` of one shape, members in the insertion order of the
object literal built by `createShape`. -/
def serializeShape (s : Shape) : String :=
  "\x7b" ++ String.intercalate ","
      (jsonField "x" s.x ++ jsonField "y" s.y ++ jsonField "w" s.w
        ++ jsonField "h" s.h
        ++ ["\"color\":\"" ++ s.color ++ "\""]
        ++ ["\"id\":" ++ jsonNum s.id])
    ++ "\x7d"

/-- `JSON.stringify(shapes)`. -/
def serializeShapes (shapes : List Shape) : String :=
  "[" ++ String.intercalate "," (shapes.map serializeShape) ++ "]"

/-- One tool output reported back to the external service:
`{ tool_call_id, output }`. -/
structure ToolResult where
  tool_call_id : String
  output : String
deriving DecidableEq, Repr

/-- One pending tool call from a `requires_action` payload: its id (which
the code guards with `call.id ?? ''`), the function name, and the parsed
JSON argument payload (the claims range over valid JSON payloads, so
`JSON.parse` succeeds and is applied before the embedding). -/
structure ToolCall where
  id : Option String
  name : String
  args : ToolArgs
deriving DecidableEq, Repr

/-- The dispatch table `functions` (lines 232-266), keyed by function
name; lookup of any other name yields `none`. -/
def functions (name : String) :
    Option (ℕ → ToolArgs → List Shape → Except String (List Shape)) :=
  if name = "createShape" then some createShape
  else if name = "editExistingShape" then some (fun _ => editExistingShape)
  else none

/-- What one iteration of the tool-call `map` callback (lines 65-95)
produces: the tool result, the shapes array afterwards, the `updates`
emissions and the `console.error` logs it performed. -/
structure DispatchStep where
  result : ToolResult
  shapes : List Shape
  emits : List String
  logs : List String
deriving DecidableEq, Repr

/-- The `map` callback over one tool call (lines 65-95): unknown function
names yield an `'error: couldnt find function'` output; a throwing
handler is caught and its `err.toString()` (`"Error: " ++ message`)
becomes the output; a successful handler yields the success text with
the serialized new shapes array.  `r` is the `Math.random` oracle for a
potential `createShape` draw. -/
def dispatchCall (r : ℕ) (shapes : List Shape) (call : ToolCall) :
    DispatchStep :=
  match functions call.name with
  | none =>
    { result := { tool_call_id := call.id.getD "",
                  output := "error: couldnt find function" },
      shapes := shapes,
      emits := ["Process encountered errors, restarting..."],
      logs := ["function name did not match accepted function arguments"] }
  | some fn =>
    match fn r call.args shapes with
    | .ok shapes2 =>
      { result := { tool_call_id := call.id.getD "",
                    output := "Success. New shapes array: "
                      ++ serializeShapes shapes2 },
        shapes := shapes2, emits := [], logs := [] }
    | .error msg =>
      { result := { tool_call_id := call.id.getD "",
                    output := "Error: " ++ msg },
        shapes := shapes,
        emits := ["Process encountered errors, restarting..."],
        logs := [] }

/-- The outcome of mapping over a whole `requires_action` batch: outputs
in call order, the shapes array and the remaining random oracle
afterwards, and the emissions/logs in order. -/
structure BatchResult where
  outputs : List ToolResult
  shapes : List Shape
  rands : List ℕ
  emits : List String
  logs : List String
deriving DecidableEq, Repr

/-- `toolCalls.map (call => ...)` (lines 65-95): sequential dispatch in
the order the external service listed the calls, threading the shapes
array; each call consumes one entry of the random oracle. -/
def dispatchAll (rands : List ℕ) (shapes : List Shape) :
    List ToolCall → BatchResult
  | [] => { outputs := [], shapes := shapes, rands := rands,
            emits := [], logs := [] }
  | c :: cs =>
    let step := dispatchCall (rands.headD 0) shapes c
    let rest := dispatchAll (rands.tailD []) step.shapes cs
    { outputs := step.result :: rest.outputs,
      shapes := rest.shapes, rands := rest.rands,
      emits := step.emits ++ rest.emits,
      logs := step.logs ++ rest.logs }

/-- The run status strings the code inspects. -/
inductive RunStatus where
  | queued
  | in_progress
  | requires_action
  | completed
  | cancelled
  | failed
  | expired
deriving DecidableEq, Repr

/-- The status string, as interpolated into the failure emission. -/
def statusText : RunStatus → String
  | .queued => "queued"
  | .in_progress => "in_progress"
  | .requires_action => "requires_action"
  | .completed => "completed"
  | .cancelled => "cancelled"
  | .failed => "failed"
  | .expired => "expired"

/-- `const failedStatus = ['cancelled', 'failed', 'expired']` (line 44). -/
def failedStatus : List RunStatus := [.cancelled, .failed, .expired]

/-- `const pendingStatus = ['in_progress', 'queued', 'requires_action']`
(line 52). -/
def pendingStatus : List RunStatus := [.in_progress, .queued, .requires_action]

/-- A run object as returned by `runs.retrieve` / `submitToolOutputs`:
its status, and `required_action?.submit_tool_outputs.tool_calls ?? []`
(line 64). -/
structure RunResult where
  status : RunStatus
  tool_calls : List ToolCall
deriving DecidableEq, Repr

/-- How the promise returned by `handleUserPrompt` settles.
`outOfTrace` means the response trace ended while the driver was still
awaiting the external service; `diverges` marks the loop iterations that
re-run forever without consuming a response (only reachable when
`activeRun` is null inside the loop). -/
inductive Outcome where
  | resolved
  | rejectedStatus (s : RunStatus)
  | rejectedError
  | outOfTrace
  | diverges
deriving DecidableEq, Repr

/-- The observable effect of one `handleUserPrompt` execution: how the
promise settled, the `socket.emit('updates', _)` payloads in order, the
`console.error` logs, each `submitToolOutputs` batch in order, the final
shapes array, and the final value of the global `activeRun`. -/
structure DriverResult where
  outcome : Outcome
  emits : List String
  logs : List String
  submissions : List (List ToolResult)
  shapes : List Shape
  activeRun : Option ℕ
deriving DecidableEq, Repr

/-- The `while (pendingStatus.includes(...))` loop (lines 51-103) plus the
exit code at lines 104-106, driven by the trace `responses` of the
remaining `runs.retrieve` / `submitToolOutputs` results.  A response of
`Except.error` models the awaited promise rejecting, which lands in the
catch block at lines 107-110: `console.error`, `reject()`, and — notably —
no clearing of `activeRun`. -/
def pollLoop :
    List (Except Unit RunResult) → List ℕ → List Shape → Option ℕ →
      RunResult → DriverResult
  | responses, rands, shapes, activeRun, runResult =>
    if runResult.status ∈ pendingStatus then
      if runResult.status = .in_progress ∨ runResult.status = .queued then
        match activeRun with
        | none =>
          -- `if (activeRun)` fails, `runResult` never changes, so the loop
          -- re-enters this branch (emit + sleep) forever
          { outcome := .diverges, emits := ["Processing your request..."],
            logs := [], submissions := [], shapes := shapes,
            activeRun := none }
        | some rid =>
          match responses with
          | [] =>
            { outcome := .outOfTrace, emits := ["Processing your request..."],
              logs := [], submissions := [], shapes := shapes,
              activeRun := some rid }
          | .error _ :: _ =>
            { outcome := .rejectedError,
              emits := ["Processing your request..."],
              logs := ["Error retrieving the run:"], submissions := [],
              shapes := shapes, activeRun := some rid }
          | .ok res :: rest =>
            let tail := pollLoop rest rands shapes (some rid) res
            { tail with emits := "Processing your request..." :: tail.emits }
      else
        -- status is `requires_action`: dispatch the batch, then submit
        let batch := dispatchAll rands shapes runResult.tool_calls
        match activeRun with
        | none =>
          -- `if (activeRun)` fails: no submission, `runResult` unchanged,
          -- the loop re-dispatches the same batch forever
          { outcome := .diverges, emits := batch.emits, logs := batch.logs,
            submissions := [], shapes := batch.shapes, activeRun := none }
        | some rid =>
          match responses with
          | [] =>
            { outcome := .outOfTrace, emits := batch.emits,
              logs := batch.logs, submissions := [batch.outputs],
              shapes := batch.shapes, activeRun := some rid }
          | .error _ :: _ =>
            { outcome := .rejectedError, emits := batch.emits,
              logs := batch.logs ++ ["Error retrieving the run:"],
              submissions := [batch.outputs], shapes := batch.shapes,
              activeRun := some rid }
          | .ok res :: rest =>
            let tail := pollLoop rest batch.rands batch.shapes (some rid) res
            { tail with emits := batch.emits ++ tail.emits,
                        logs := batch.logs ++ tail.logs,
                        submissions := batch.outputs :: tail.submissions }
    else
      -- exit of the while loop, lines 104-106: clear the handle, emit the
      -- empty string, resolve (a no-op if the promise already rejected)
      { outcome := .resolved, emits := [""], logs := [], submissions := [],
        shapes := shapes, activeRun := none }

/-- `handleUserPrompt` (lines 23-112).  `messages.create` and
`runs.create` are awaited outside the try block and assumed to succeed;
`runId` is the handle of the created run (assigned to the global
`activeRun` at line 34), and `responses` is the trace of the successive
`runs.retrieve` / `submitToolOutputs` results, the first entry being the
initial retrieval at line 42.  On a terminal failure status at that
first retrieval (lines 44-49) the code clears `activeRun`, emits the
failure message and rejects, then falls through the while-check into the
exit code, additionally emitting the empty string; the later `resolve()`
is a no-op on the already-rejected promise. -/
def handleUserPrompt (runId : ℕ) (rands : List ℕ) (shapes : List Shape)
    (responses : List (Except Unit RunResult)) : DriverResult :=
  match responses with
  | [] =>
    { outcome := .outOfTrace, emits := [], logs := [], submissions := [],
      shapes := shapes, activeRun := some runId }
  | .error _ :: _ =>
    { outcome := .rejectedError, emits := [],
      logs := ["Error retrieving the run:"], submissions := [],
      shapes := shapes, activeRun := some runId }
  | .ok res :: rest =>
    if res.status ∈ failedStatus then
      let tail := pollLoop rest rands shapes none res
      { tail with
        outcome := .rejectedStatus res.status,
        emits := ("Process failed with status: " ++ statusText res.status)
          :: tail.emits }
    else
      pollLoop rest rands shapes (some runId) res

/-- The `requires_action` batches of tool calls that the polling loop
consumes from a response trace, in order.  This mirrors the loop's
consumption of the trace (spec section 4.3): one batch per pass through
`AwaitingToolOutputs` (each followed by one submission), pending
statuses consume one response each, any other status ends the run. -/
def raBatches :
    List (Except Unit RunResult) → RunResult → List (List ToolCall)
  | responses, res =>
    if res.status ∈ pendingStatus then
      if res.status = .in_progress ∨ res.status = .queued then
        match responses with
        | .ok res2 :: rest => raBatches rest res2
        | _ => []
      else
        match responses with
        | .ok res2 :: rest => res.tool_calls :: raBatches rest res2
        | _ => [res.tool_calls]
    else []

/-- The `requires_action` batches of one whole `handleUserPrompt`
execution over a response trace: none when the trace starts with an
error or is empty, otherwise those the loop consumes. -/
def raBatchesOfTrace : List (Except Unit RunResult) → List (List ToolCall)
  | .ok res :: rest => raBatches rest res
  | _ => []

/-- An event emitted to a client socket by the prompt listener. -/
inductive SocketEvent where
  | updates (msg : String)
  | snapshot (shapes : List Shape)
deriving DecidableEq, Repr

/-- The session-global state the prompt listener reads and writes: the
`activeRun` handle (line 124) and the `shapes` array (line 118). -/
structure GatewayState where
  activeRun : Option ℕ
  shapes : List Shape
deriving DecidableEq, Repr

/-- One incoming `handle-user-prompt` event together with the oracle data
of the `handleUserPrompt` execution it would trigger: the id of the run
`runs.create` would return, the `Math.random` oracle, and the external
service's response trace. -/
structure PromptEvent where
  runId : ℕ
  rands : List ℕ
  responses : List (Except Unit RunResult)

/-- The observable effect of processing one `handle-user-prompt` event:
the session state afterwards, the events emitted to the requesting
client in order, whether a run was started (`handleUserPrompt` invoked),
and how the driver's promise settled (`resolved` when the listener ran
to completion without a driver, since it then merely emits a
snapshot). -/
structure PromptOutcome where
  state : GatewayState
  events : List SocketEvent
  startedRun : Bool
  outcome : Outcome
deriving Repr

/-- The `handle-user-prompt` listener (lines 141-148): the null check on
`activeRun` is the only gate before invoking `handleUserPrompt`.  When
the driver's promise rejects (or never settles), the `await` at line 144
throws (or suspends forever) and the snapshot emit at line 147 is
skipped; only when it resolves is the snapshot emitted. -/
def processPrompt (st : GatewayState) (ev : PromptEvent) : PromptOutcome :=
  if st.activeRun.isNone then
    let r := handleUserPrompt ev.runId ev.rands st.shapes ev.responses
    match r.outcome with
    | .resolved =>
      { state := { activeRun := r.activeRun, shapes := r.shapes },
        events := r.emits.map SocketEvent.updates
          ++ [SocketEvent.snapshot r.shapes],
        startedRun := true, outcome := .resolved }
    | o =>
      { state := { activeRun := r.activeRun, shapes := r.shapes },
        events := r.emits.map SocketEvent.updates,
        startedRun := true, outcome := o }
  else
    { state := st, events := [SocketEvent.snapshot st.shapes],
      startedRun := false, outcome := .resolved }

/-- The payload of a direct `update-shape` event; any of the fields may be
absent (`undefined`). -/
structure UpdatePayload where
  id : Option JSNum
  x : Option JSNum
  y : Option JSNum
  w : Option JSNum
  h : Option JSNum
deriving DecidableEq, Repr

/-- The four unconditional assignments of the `update-shape` listener
(lines 158-161): `shape.f = updatedShape.f` for `x`, `y`, `w`, `h` —
an absent payload field sets the shape's field to `undefined`;
`color` and `id` are not assigned. -/
def applyDirectUpdate (p : UpdatePayload) (s : Shape) : Shape :=
  { s with x := p.x, y := p.y, w := p.w, h := p.h }

/-- `shapes.find(...)` plus in-place mutation for the `update-shape`
listener: updates the first shape whose id matches and returns it (the
broadcast payload), or `none` if no shape matches. -/
def updateFirst (p : UpdatePayload) : List Shape → Option (List Shape × Shape)
  | [] => none
  | s :: rest =>
    if idMatches p.id s then
      some (applyDirectUpdate p s :: rest, applyDirectUpdate p s)
    else (updateFirst p rest).map (fun q => (s :: q.1, q.2))

/-- The `update-shape` listener (lines 155-163): silently returns when no
shape has the given id, otherwise overwrites `x`, `y`, `w`, `h` of the
found shape and broadcasts that shape (second component). -/
def updateShapeHandler (p : UpdatePayload) (shapes : List Shape) :
    List Shape × Option Shape :=
  match updateFirst p shapes with
  | none => (shapes, none)
  | some q => (q.1, some q.2)

/-! ### Helper lemmas -/

/-- An argument payload with every field absent. -/
def emptyArgs : ToolArgs :=
  { id := none, x := none, y := none, w := none, h := none, color := none }

/-- A concrete `createShape` payload with a `NaN` width. -/
def nanArgs : ToolArgs :=
  { emptyArgs with
    x := some (.finite 1), y := some (.finite 2),
    w := some .nan, h := some (.finite 4) }

/-- A concrete `editExistingShape` payload naming id 42 only. -/
def editId42Args : ToolArgs :=
  { emptyArgs with id := some (.finite 42) }

/-- A concrete valid `createShape` payload without a color. -/
def squareArgs : ToolArgs :=
  { emptyArgs with
    x := some (.finite 0), y := some (.finite 0),
    w := some (.finite 50), h := some (.finite 50) }

/-- A concrete `editExistingShape` payload moving shape 42 to x = -10. -/
def moveLeftArgs : ToolArgs :=
  { emptyArgs with
    id := some (.finite 42), x := some (.finite (-10)) }

theorem functions_createShape : functions "createShape" = some createShape :=
  rfl

theorem functions_editExistingShape :
    functions "editExistingShape" = some (fun _ => editExistingShape) := rfl

theorem dispatchCall_tool_call_id (r : ℕ) (shapes : List Shape)
    (call : ToolCall) :
    (dispatchCall r shapes call).result.tool_call_id = call.id.getD "" := by
  unfold dispatchCall
  split
  · rfl
  · split <;> rfl

theorem dispatchAll_ids :
    ∀ (calls : List ToolCall) (rands : List ℕ) (shapes : List Shape),
      (dispatchAll rands shapes calls).outputs.map ToolResult.tool_call_id
        = calls.map (fun c => c.id.getD "") := by
  intro calls
  induction calls with
  | nil => intro rands shapes; rfl
  | cons c cs ih =>
    intro rands shapes
    simp [dispatchAll, dispatchCall_tool_call_id, ih]

theorem editFirst_eq_none (args : ToolArgs) :
    ∀ shapes : List Shape, (∀ t ∈ shapes, idMatches args.id t = false) →
      editFirst args shapes = none := by
  intro shapes
  induction shapes with
  | nil => intro _; rfl
  | cons s rest ih =>
    intro h
    simp [editFirst, h s (by simp),
      ih (fun t ht => h t (by simp [ht]))]

theorem editFirst_append (args : ToolArgs) (s : Shape) (post : List Shape)
    (hs : idMatches args.id s = true) :
    ∀ pre : List Shape, (∀ t ∈ pre, idMatches args.id t = false) →
      editFirst args (pre ++ s :: post)
        = some (pre ++ applyEdit args s :: post) := by
  intro pre
  induction pre with
  | nil => intro _; simp [editFirst, hs]
  | cons p ps ih =>
    intro h
    simp [editFirst, h p (by simp),
      ih (fun t ht => h t (by simp [ht]))]

theorem updateFirst_eq_none (p : UpdatePayload) :
    ∀ shapes : List Shape, (∀ t ∈ shapes, idMatches p.id t = false) →
      updateFirst p shapes = none := by
  intro shapes
  induction shapes with
  | nil => intro _; rfl
  | cons s rest ih =>
    intro h
    simp [updateFirst, h s (by simp),
      ih (fun t ht => h t (by simp [ht]))]

theorem updateFirst_append (p : UpdatePayload) (s : Shape) (post : List Shape)
    (hs : idMatches p.id s = true) :
    ∀ pre : List Shape, (∀ t ∈ pre, idMatches p.id t = false) →
      updateFirst p (pre ++ s :: post)
        = some (pre ++ applyDirectUpdate p s :: post, applyDirectUpdate p s) := by
  intro pre
  induction pre with
  | nil => intro _; simp [updateFirst, hs]
  | cons q ps ih =>
    intro h
    simp [updateFirst, h q (by simp),
      ih (fun t ht => h t (by simp [ht]))]

theorem getLast?_cons_of_getLast? {α : Type} (a x : α) (l : List α)
    (h : l.getLast? = some x) : (a :: l).getLast? = some x := by
  cases l with
  | nil => simp at h
  | cons b bs => rw [List.getLast?_cons_cons, h]

theorem getLast?_append_of_getLast? {α : Type} (l1 l2 : List α) (x : α)
    (h : l2.getLast? = some x) : (l1 ++ l2).getLast? = some x := by
  have hne : l2 ≠ [] := by intro e; subst e; simp at h
  rw [List.getLast?_append_of_ne_nil l1 hne, h]

theorem failedStatus_not_pending {s : RunStatus} (h : s ∈ failedStatus) :
    s ∉ pendingStatus := by
  simp only [failedStatus, List.mem_cons, List.not_mem_nil, or_false] at h
  rcases h with h | h | h <;> subst h <;> decide

/-- Any non-pending status makes the while loop exit immediately: the
handle is cleared, the empty update is emitted, the promise resolves. -/
theorem pollLoop_not_pending (responses : List (Except Unit RunResult))
    (rands : List ℕ) (shapes : List Shape) (activeRun : Option ℕ)
    (res : RunResult) (h : res.status ∉ pendingStatus) :
    pollLoop responses rands shapes activeRun res
      = { outcome := .resolved, emits := [""], logs := [], submissions := [],
          shapes := shapes, activeRun := none } := by
  rw [pollLoop.eq_def]
  simp [h]

/-- Inside the loop the handle stays `some rid`; when the run ends in the
catch block, the handle is left that way and the error was logged. -/
theorem pollLoop_rejectedError :
    ∀ (responses : List (Except Unit RunResult)) (rands : List ℕ)
      (shapes : List Shape) (rid : ℕ) (res : RunResult),
      (pollLoop responses rands shapes (some rid) res).outcome
          = .rejectedError →
        (pollLoop responses rands shapes (some rid) res).activeRun = some rid
        ∧ "Error retrieving the run:"
            ∈ (pollLoop responses rands shapes (some rid) res).logs := by
  intro responses
  induction responses with
  | nil =>
    intro rands shapes rid res h
    rw [pollLoop.eq_def] at h ⊢
    rcases res with ⟨status, calls⟩
    cases status <;> simp_all [pendingStatus]
  | cons head tail ih =>
    intro rands shapes rid res h
    rw [pollLoop.eq_def] at h ⊢
    rcases res with ⟨status, calls⟩
    cases status <;> rcases head with u | res2 <;>
      simp_all [pendingStatus]

/-- A run whose loop resolves always emits the empty string last. -/
theorem pollLoop_resolved_last :
    ∀ (responses : List (Except Unit RunResult)) (rands : List ℕ)
      (shapes : List Shape) (activeRun : Option ℕ) (res : RunResult),
      (pollLoop responses rands shapes activeRun res).outcome = .resolved →
        (pollLoop responses rands shapes activeRun res).emits.getLast?
          = some "" := by
  intro responses
  induction responses with
  | nil =>
    intro rands shapes a res h
    rw [pollLoop.eq_def] at h ⊢
    rcases res with ⟨status, calls⟩
    cases status <;> rcases a with _ | rid <;> simp_all [pendingStatus]
  | cons head tail ih =>
    intro rands shapes a res h
    rw [pollLoop.eq_def] at h ⊢
    rcases res with ⟨status, calls⟩
    cases status <;> rcases a with _ | rid <;>
        rcases head with u | res2 <;> simp_all [pendingStatus] <;>
      exact getLast?_cons_of_getLast? _ _ _ (ih _ _ _ _ h)

theorem handleUserPrompt_resolved_last (runId : ℕ) (rands : List ℕ)
    (shapes : List Shape) (responses : List (Except Unit RunResult)) :
    (handleUserPrompt runId rands shapes responses).outcome = .resolved →
      (handleUserPrompt runId rands shapes responses).emits.getLast?
        = some "" := by
  rcases responses with _ | ⟨head, rest⟩
  · intro h; simp [handleUserPrompt] at h
  rcases head with u | res
  · intro h; simp [handleUserPrompt] at h
  by_cases hf : res.status ∈ failedStatus
  · intro h
    simp [handleUserPrompt, hf] at h
  · intro h
    simp only [handleUserPrompt, if_neg hf] at h ⊢
    exact pollLoop_resolved_last _ _ _ _ _ h

/-- A non-pending status yields no further batches. -/
theorem raBatches_not_pending (responses : List (Except Unit RunResult))
    (res : RunResult) (h : res.status ∉ pendingStatus) :
    raBatches responses res = [] := by
  rw [raBatches.eq_def]
  simp [h]

/-- The loop makes one submission per `requires_action` batch it
consumes, and the output ids of each submission are, in order, the
`call.id ?? ''` of that batch's tool calls. -/
theorem pollLoop_submissions :
    ∀ (responses : List (Except Unit RunResult)) (rands : List ℕ)
      (shapes : List Shape) (rid : ℕ) (res : RunResult),
      (pollLoop responses rands shapes (some rid) res).submissions.map
          (List.map ToolResult.tool_call_id)
        = (raBatches responses res).map
            (List.map (fun c => c.id.getD "")) := by
  intro responses
  induction responses with
  | nil =>
    intro rands shapes rid res
    rw [pollLoop.eq_def, raBatches.eq_def]
    rcases res with ⟨status, calls⟩
    cases status <;> simp [pendingStatus, dispatchAll_ids]
  | cons head tail ih =>
    intro rands shapes rid res
    rw [pollLoop.eq_def, raBatches.eq_def]
    rcases res with ⟨status, calls⟩
    cases status <;> rcases head with u | res2 <;>
      simp [pendingStatus, dispatchAll_ids, ih]

/-! ### Claim theorems -/

/-- C4: for every dispatched tool call — any tool name, any argument
payload — the `map` callback never raises: an unknown tool name yields a
ToolResult whose output says the function could not be found (without
mutating the shapes); a present handler that throws has its error caught
and turned into the ToolResult's error string (shapes unmutated); and a
successful handler yields a ToolResult whose output states success and
contains the serialized new shape collection. -/
theorem dispatch_never_raises (r : ℕ) (shapes : List Shape)
    (call : ToolCall) :
    (functions call.name = none →
      (dispatchCall r shapes call).result.output
          = "error: couldnt find function"
      ∧ (dispatchCall r shapes call).shapes = shapes)
    ∧ (∀ fn, functions call.name = some fn →
        (∀ shapes2, fn r call.args shapes = .ok shapes2 →
          (dispatchCall r shapes call).result.output
              = "Success. New shapes array: " ++ serializeShapes shapes2
          ∧ (dispatchCall r shapes call).shapes = shapes2)
        ∧ (∀ msg, fn r call.args shapes = .error msg →
          (dispatchCall r shapes call).result.output = "Error: " ++ msg
          ∧ (dispatchCall r shapes call).shapes = shapes)) := by
  constructor
  · intro hnone
    simp [dispatchCall, hnone]
  · intro fn hfn
    constructor
    · intro shapes2 hok
      simp [dispatchCall, hfn, hok]
    · intro msg herr
      simp [dispatchCall, hfn, herr]

/-- Witness for C4 at a concrete unknown tool name. -/
theorem dispatch_never_raises_witness :
    (dispatchCall 0 []
        { id := some "c1", name := "noSuchTool", args := emptyArgs }
      ).result.output = "error: couldnt find function"
    ∧ (dispatchCall 0 []
        { id := some "c1", name := "noSuchTool", args := emptyArgs }
      ).shapes = [] :=
  (dispatch_never_raises 0 []
    { id := some "c1", name := "noSuchTool", args := emptyArgs }).1 rfl

/-- C5: failed dispatch never partially mutates the shape store:
a `createShape` call with any non-finite (or missing) `x`, `y`, `w`
or `h` leaves the collection unmodified and yields an error ToolResult,
and an `editExistingShape` call whose id matches no shape leaves the
collection unmodified and yields an error ToolResult. -/
theorem failed_dispatch_preserves_store (r : ℕ) (shapes : List Shape)
    (args : ToolArgs) (cid : Option String) :
    ((isFiniteField args.x = false ∨ isFiniteField args.y = false
        ∨ isFiniteField args.w = false ∨ isFiniteField args.h = false) →
      (dispatchCall r shapes
          { id := cid, name := "createShape", args := args }).shapes = shapes
      ∧ (dispatchCall r shapes
          { id := cid, name := "createShape", args := args }).result.output
        = "Error: required params were not given")
    ∧ ((∀ t ∈ shapes, idMatches args.id t = false) →
      (dispatchCall r shapes
          { id := cid, name := "editExistingShape", args := args }).shapes
        = shapes
      ∧ (dispatchCall r shapes
          { id := cid, name := "editExistingShape", args := args }
        ).result.output = "Error: could not find shape") := by
  constructor
  · intro hbad
    have hc : createShape r args shapes
        = .error "required params were not given" := by
      unfold createShape
      rcases hbad with h | h | h | h <;> simp [h]
    constructor <;>
      simp [dispatchCall, functions_createShape, hc]
  · intro hnone
    have he : editExistingShape args shapes = .error "could not find shape" := by
      unfold editExistingShape
      rw [editFirst_eq_none args shapes hnone]
    constructor <;>
      simp [dispatchCall, functions_editExistingShape, he]

/-- Witness for C5: `createShape` with `NaN` width, and
`editExistingShape` against an empty collection. -/
theorem failed_dispatch_preserves_store_witness :
    ((dispatchCall 3 []
        { id := some "c9", name := "createShape", args := nanArgs }).shapes = []
      ∧ (dispatchCall 3 []
          { id := some "c9", name := "createShape", args := nanArgs }
        ).result.output = "Error: required params were not given")
    ∧ ((dispatchCall 3 []
        { id := some "c9", name := "editExistingShape", args := editId42Args }
      ).shapes = []
      ∧ (dispatchCall 3 []
          { id := some "c9", name := "editExistingShape", args := editId42Args }
        ).result.output = "Error: could not find shape") :=
  ⟨(failed_dispatch_preserves_store 3 [] nanArgs (some "c9")).1
      (by simp [nanArgs, isFiniteField]),
   (failed_dispatch_preserves_store 3 [] editId42Args (some "c9")).2
      (by simp)⟩

/-- C6: for all `createShape` arguments with finite `x`, `y`, `w`, `h`,
the collection grows by exactly one shape, appended at the end; its
`x`, `y`, `w`, `h` equal the given arguments, its color is the given
color or `hsl(0, 0%, 0%)` when absent, and its id is an integer in
`[0, 100000)`. -/
theorem createShape_appends_one (r : ℕ) (args : ToolArgs)
    (shapes : List Shape) (hx : isFiniteField args.x = true)
    (hy : isFiniteField args.y = true) (hw : isFiniteField args.w = true)
    (hh : isFiniteField args.h = true) :
    createShape r args shapes
      = .ok (shapes ++ [{ id := .finite (genId r : ℕ),
                          x := args.x, y := args.y, w := args.w, h := args.h,
                          color := args.color.getD defaultColor }])
    ∧ (shapes ++ [({ id := .finite (genId r : ℕ),
                     x := args.x, y := args.y, w := args.w, h := args.h,
                     color := args.color.getD defaultColor } : Shape)]).length
        = shapes.length + 1
    ∧ genId r < 100000 := by
  refine ⟨?_, by simp, Nat.mod_lt _ (by norm_num)⟩
  unfold createShape
  simp [hx, hy, hw, hh]

/-- Witness for C6 at concrete finite arguments with no color. -/
theorem createShape_appends_one_witness :
    createShape 123456 squareArgs []
      = .ok [{ id := .finite (23456 : ℕ), x := some (.finite 0),
               y := some (.finite 0), w := some (.finite 50),
               h := some (.finite 50), color := "hsl(0, 0%, 0%)" }]
    ∧ genId 123456 < 100000 := by
  have h := createShape_appends_one 123456 squareArgs [] rfl rfl rfl rfl
  exact ⟨by rw [h.1]; rfl, h.2.2⟩

/-- C7: `editExistingShape` on an existing id changes only the supplied
optional fields of the (first) matching shape, keeps omitted fields and
every other shape untouched, and preserves the collection length. -/
theorem editExistingShape_frame (args : ToolArgs) (pre post : List Shape)
    (s : Shape) (hpre : ∀ t ∈ pre, idMatches args.id t = false)
    (hs : idMatches args.id s = true) :
    editExistingShape args (pre ++ s :: post)
        = .ok (pre ++ applyEdit args s :: post)
    ∧ (pre ++ applyEdit args s :: post).length = (pre ++ s :: post).length
    ∧ (applyEdit args s).id = s.id
    ∧ (args.x = none → (applyEdit args s).x = s.x)
    ∧ (∀ v, args.x = some v → (applyEdit args s).x = some v)
    ∧ (args.y = none → (applyEdit args s).y = s.y)
    ∧ (∀ v, args.y = some v → (applyEdit args s).y = some v)
    ∧ (args.w = none → (applyEdit args s).w = s.w)
    ∧ (∀ v, args.w = some v → (applyEdit args s).w = some v)
    ∧ (args.h = none → (applyEdit args s).h = s.h)
    ∧ (∀ v, args.h = some v → (applyEdit args s).h = some v)
    ∧ (args.color = none → (applyEdit args s).color = s.color)
    ∧ (∀ c, args.color = some c → (applyEdit args s).color = c) := by
  refine ⟨?_, by simp, rfl, ?_, ?_, ?_, ?_, ?_, ?_, ?_, ?_, ?_, ?_⟩
  · unfold editExistingShape
    rw [editFirst_append args s post hs pre hpre]
  all_goals
    first
      | (intro h; simp [applyEdit, Option.orElse, h])
      | (intro v h; simp [applyEdit, Option.orElse, h])

/-- Witness for C7: move shape 42 left, leaving all other fields. -/
theorem editExistingShape_frame_witness :
    editExistingShape moveLeftArgs
        [{ id := .finite 42, x := some (.finite 0), y := some (.finite 0),
           w := some (.finite 10), h := some (.finite 10),
           color := "hsl(0, 0%, 0%)" }]
      = .ok [{ id := .finite 42, x := some (.finite (-10)),
               y := some (.finite 0), w := some (.finite 10),
               h := some (.finite 10), color := "hsl(0, 0%, 0%)" }] := by
  have h := editExistingShape_frame moveLeftArgs [] []
    { id := .finite 42, x := some (.finite 0), y := some (.finite 0),
      w := some (.finite 10), h := some (.finite 10),
      color := "hsl(0, 0%, 0%)" }
    (by simp) (by simp [moveLeftArgs, idMatches, jsEq])
  have h1 := h.1
  simpa [moveLeftArgs, applyEdit, Option.orElse, emptyArgs] using h1

/-- C10: the direct `update-shape` listener: a payload whose id matches
no shape leaves the collection unchanged and broadcasts nothing; a
matching payload overwrites all four of `x`, `y`, `w`, `h` of the first
matching shape unconditionally with the payload's (possibly absent)
values, never touches `color` or `id`, leaves every other shape intact,
and broadcasts the mutated shape. -/
theorem update_shape_semantics (p : UpdatePayload) (shapes pre post : List Shape)
    (s : Shape) :
    ((∀ t ∈ shapes, idMatches p.id t = false) →
      updateShapeHandler p shapes = (shapes, none))
    ∧ ((∀ t ∈ pre, idMatches p.id t = false) → idMatches p.id s = true →
      updateShapeHandler p (pre ++ s :: post)
          = (pre ++ applyDirectUpdate p s :: post, some (applyDirectUpdate p s))
      ∧ (applyDirectUpdate p s).x = p.x
      ∧ (applyDirectUpdate p s).y = p.y
      ∧ (applyDirectUpdate p s).w = p.w
      ∧ (applyDirectUpdate p s).h = p.h
      ∧ (applyDirectUpdate p s).color = s.color
      ∧ (applyDirectUpdate p s).id = s.id
      ∧ (pre ++ applyDirectUpdate p s :: post).length
          = (pre ++ s :: post).length) := by
  constructor
  · intro h
    unfold updateShapeHandler
    rw [updateFirst_eq_none p shapes h]
  · intro hpre hs
    refine ⟨?_, rfl, rfl, rfl, rfl, rfl, rfl, by simp⟩
    unfold updateShapeHandler
    rw [updateFirst_append p s post hs pre hpre]

/-- Witness for C10: an `update-shape` payload with `h` absent sets the
shape's `h` to `undefined` and keeps its color and id. -/
theorem update_shape_semantics_witness :
    updateShapeHandler
        { id := some (.finite 1), x := some (.finite 5),
          y := some (.finite 6), w := some (.finite 7), h := none }
        [{ id := .finite 1, x := some (.finite 0), y := some (.finite 0),
           w := some (.finite 1), h := some (.finite 1), color := "red" }]
      = ([{ id := .finite 1, x := some (.finite 5), y := some (.finite 6),
            w := some (.finite 7), h := none, color := "red" }],
         some { id := .finite 1, x := some (.finite 5),
                y := some (.finite 6), w := some (.finite 7), h := none,
                color := "red" }) := by
  have h := (update_shape_semantics
    { id := some (.finite 1), x := some (.finite 5), y := some (.finite 6),
      w := some (.finite 7), h := none }
    [] [] []
    { id := .finite 1, x := some (.finite 0), y := some (.finite 0),
      w := some (.finite 1), h := some (.finite 1), color := "red" }).2
    (by simp) (by simp [idMatches, jsEq])
  simpa [applyDirectUpdate] using h.1

/-- C1: the null-ness of the Run handle is the sole gate the prompt
listener checks before starting a run — the listener starts a run if and
only if the handle is null — so an instruction arriving while the Run
handle is non-null starts no second run, changes no session state, and
only echoes a snapshot. -/
theorem single_run_gate (st : GatewayState) (ev : PromptEvent) :
    ((processPrompt st ev).startedRun = true ↔ st.activeRun = none)
    ∧ (st.activeRun ≠ none →
        (processPrompt st ev).startedRun = false
        ∧ (processPrompt st ev).state = st
        ∧ (processPrompt st ev).events = [SocketEvent.snapshot st.shapes]) := by
  rcases hst : st.activeRun with _ | rid
  · refine ⟨?_, fun hne => absurd rfl hne⟩
    simp only [processPrompt, hst, Option.isNone_none, if_true]
    split <;> simp
  · constructor
    · simp [processPrompt, hst]
    · intro _
      refine ⟨?_, ?_, ?_⟩ <;> simp [processPrompt, hst]

/-- Witness for C1: a prompt arriving while the handle holds run 1 is
ignored apart from the snapshot echo. -/
theorem single_run_gate_witness :
    (processPrompt { activeRun := some 1, shapes := [] }
        { runId := 0, rands := [], responses := [] }).startedRun = false
    ∧ (processPrompt { activeRun := some 1, shapes := [] }
        { runId := 0, rands := [], responses := [] }).state
        = { activeRun := some 1, shapes := [] }
    ∧ (processPrompt { activeRun := some 1, shapes := [] }
        { runId := 0, rands := [], responses := [] }).events
        = [SocketEvent.snapshot []] :=
  (single_run_gate { activeRun := some 1, shapes := [] }
    { runId := 0, rands := [], responses := [] }).2 (by simp)

/-- C2 as amended: a terminal failure status (`cancelled`, `failed`,
`expired`) is notified, signalled as failure and clears the Run handle
only when it is returned by the FIRST status fetch; a terminal failure
status reached at any later fetch merely exits the polling loop — the
Run handle is cleared, no further tool outputs are awaited or submitted,
but the run is treated as success: the empty (success) notification is
emitted and the promise resolves, with no failure notification. -/
theorem terminal_failure_handling :
    (∀ s ∈ failedStatus, ∀ (runId : ℕ) (rands : List ℕ)
        (shapes : List Shape) (calls : List ToolCall)
        (rest : List (Except Unit RunResult)),
      handleUserPrompt runId rands shapes
          (.ok { status := s, tool_calls := calls } :: rest)
        = { outcome := .rejectedStatus s,
            emits := ["Process failed with status: " ++ statusText s, ""],
            logs := [], submissions := [], shapes := shapes,
            activeRun := none })
    ∧ (∀ s ∈ failedStatus, ∀ (rands : List ℕ) (shapes : List Shape)
        (activeRun : Option ℕ) (calls : List ToolCall)
        (responses : List (Except Unit RunResult)),
      pollLoop responses rands shapes activeRun
          { status := s, tool_calls := calls }
        = { outcome := .resolved, emits := [""], logs := [],
            submissions := [], shapes := shapes, activeRun := none }) := by
  have hloop : ∀ s ∈ failedStatus, ∀ (rands : List ℕ) (shapes : List Shape)
      (activeRun : Option ℕ) (calls : List ToolCall)
      (responses : List (Except Unit RunResult)),
      pollLoop responses rands shapes activeRun
          { status := s, tool_calls := calls }
        = { outcome := .resolved, emits := [""], logs := [],
            submissions := [], shapes := shapes, activeRun := none } := by
    intro s hs rands shapes a calls responses
    exact pollLoop_not_pending _ _ _ _ _ (failedStatus_not_pending hs)
  refine ⟨?_, hloop⟩
  intro s hs runId rands shapes calls rest
  simp only [handleUserPrompt, hs, if_pos, hloop s hs]

/-- Witness for C2 (amended): a run whose first fetch reports `cancelled`
is notified, rejected, and its handle cleared. -/
theorem terminal_failure_handling_witness :
    handleUserPrompt 3 [] []
        [.ok { status := .cancelled, tool_calls := [] }]
      = { outcome := .rejectedStatus .cancelled,
          emits := ["Process failed with status: cancelled", ""], logs := [],
          submissions := [], shapes := [], activeRun := none } := by
  rw [terminal_failure_handling.1 .cancelled (by decide) 3 [] [] [] []]
  decide

/-- C2 is false as stated: when the SECOND status fetch returns the
terminal failure status `failed`, the driver neither notifies the caller
of the failing status nor signals failure — it emits only the progress
and empty-success messages and resolves. -/
theorem midrun_failure_reported_as_success :
    handleUserPrompt 0 [] []
        [.ok { status := .in_progress, tool_calls := [] },
         .ok { status := .failed, tool_calls := [] }]
      = { outcome := .resolved,
          emits := ["Processing your request...", ""], logs := [],
          submissions := [], shapes := [], activeRun := none } := by
  decide

/-- C3 as amended: an error raised while fetching run status or
submitting tool outputs is caught and logged and the promise is
rejected, but the Run handle is NOT cleared: it keeps the created run,
so the session gateway never accepts another instruction. -/
theorem caught_error_leaves_handle (runId : ℕ) (rands : List ℕ)
    (shapes : List Shape) (responses : List (Except Unit RunResult)) :
    (handleUserPrompt runId rands shapes responses).outcome
        = .rejectedError →
      (handleUserPrompt runId rands shapes responses).activeRun = some runId
      ∧ "Error retrieving the run:"
          ∈ (handleUserPrompt runId rands shapes responses).logs := by
  rcases responses with _ | ⟨head, rest⟩
  · intro h; simp [handleUserPrompt] at h
  rcases head with u | res
  · intro _; simp [handleUserPrompt]
  by_cases hf : res.status ∈ failedStatus
  · intro h
    simp [handleUserPrompt, hf] at h
  · intro h
    simp only [handleUserPrompt, if_neg hf] at h ⊢
    exact pollLoop_rejectedError rest rands shapes runId res h

/-- Witness for C3 (amended): a retrieval error on the second fetch of
run 9 leaves the handle at `some 9` and logs the error. -/
theorem caught_error_leaves_handle_witness :
    (handleUserPrompt 9 [] []
        [.ok { status := .in_progress, tool_calls := [] },
         .error ()]).activeRun = some 9
    ∧ "Error retrieving the run:"
        ∈ (handleUserPrompt 9 [] []
            [.ok { status := .in_progress, tool_calls := [] },
             .error ()]).logs :=
  caught_error_leaves_handle 9 [] []
    [.ok { status := .in_progress, tool_calls := [] }, .error ()] (by decide)

/-- C3 is false as stated: when the first status fetch throws, the catch
block rejects and logs but leaves the Run handle non-null (`some 7`)
instead of clearing it. -/
theorem catch_block_keeps_active_run :
    (handleUserPrompt 7 [] [] [Except.error ()]).outcome = .rejectedError
    ∧ (handleUserPrompt 7 [] [] [Except.error ()]).activeRun = some 7 := by
  decide

/-- C8: a run passing through N `requires_action` batches makes exactly N
tool-output submissions, and each submission answers every tool call of
its batch, one output per call, in the order the external service listed
the calls (output ids align positionally with `call.id ?? ''`), the
whole batch submitted together. -/
theorem one_submission_per_batch (runId : ℕ) (rands : List ℕ)
    (shapes : List Shape) (responses : List (Except Unit RunResult)) :
    (handleUserPrompt runId rands shapes responses).submissions.map
        (List.map ToolResult.tool_call_id)
      = (raBatchesOfTrace responses).map
          (List.map (fun c => c.id.getD "")) := by
  rcases responses with _ | ⟨head, rest⟩
  · rfl
  rcases head with u | res
  · rfl
  by_cases hf : res.status ∈ failedStatus
  · have hnp := failedStatus_not_pending hf
    simp only [handleUserPrompt, raBatchesOfTrace, if_pos hf]
    simp [pollLoop_not_pending _ _ _ _ _ hnp,
      raBatches_not_pending _ _ hnp]
  · simp only [handleUserPrompt, raBatchesOfTrace, if_neg hf]
    exact pollLoop_submissions rest rands shapes runId res

/-- C9 as amended: when the driver's promise resolves, the caller
receives the cleared (empty) notification as the last update, followed
by a fresh full-state snapshot; when it does not resolve (rejection or
no settlement), the `await` in the listener throws or suspends, so NO
snapshot is broadcast — the caller sees only the updates emitted before
the failure. -/
theorem final_notifications (st : GatewayState) (ev : PromptEvent)
    (hidle : st.activeRun = none) (r : DriverResult)
    (hr : r = handleUserPrompt ev.runId ev.rands st.shapes ev.responses) :
    (r.outcome = .resolved →
      (processPrompt st ev).events
          = r.emits.map SocketEvent.updates ++ [SocketEvent.snapshot r.shapes]
      ∧ r.emits.getLast? = some "")
    ∧ (r.outcome ≠ .resolved →
      (processPrompt st ev).events = r.emits.map SocketEvent.updates
      ∧ ∀ sh, SocketEvent.snapshot sh ∉ (processPrompt st ev).events) := by
  subst hr
  constructor
  · intro hres
    refine ⟨?_, handleUserPrompt_resolved_last _ _ _ _ hres⟩
    simp [processPrompt, hidle, hres]
  · intro hne
    have hev : (processPrompt st ev).events
        = (handleUserPrompt ev.runId ev.rands st.shapes
            ev.responses).emits.map SocketEvent.updates := by
      rcases ho : (handleUserPrompt ev.runId ev.rands st.shapes
          ev.responses).outcome with _ | s | _ | _ | _
      · exact absurd ho hne
      all_goals simp [processPrompt, hidle, ho]
    refine ⟨hev, fun sh hmem => ?_⟩
    rw [hev] at hmem
    simp [List.mem_map] at hmem

/-- Witness for C9 (amended): a run completing on the first fetch yields
the empty notification followed by the snapshot. -/
theorem final_notifications_witness :
    (processPrompt { activeRun := none, shapes := [] }
        { runId := 0, rands := [],
          responses := [.ok { status := .completed, tool_calls := [] }]
        }).events
      = [SocketEvent.updates "", SocketEvent.snapshot []] := by
  have h := (final_notifications { activeRun := none, shapes := [] }
    { runId := 0, rands := [],
      responses := [.ok { status := .completed, tool_calls := [] }] }
    rfl
    (handleUserPrompt 0 [] []
      [.ok { status := .completed, tool_calls := [] }])
    rfl).1 (by decide)
  rw [h.1]
  decide

/-- C9 is false as stated: an instruction whose run fails (first fetch
throws) emits NO events at all — neither an error-status notification
nor the full-state snapshot the claim promises after every handled
instruction. -/
theorem failed_run_emits_no_snapshot :
    (processPrompt { activeRun := none, shapes := [] }
        { runId := 0, rands := [], responses := [Except.error ()] }).events
      = []
    ∧ (processPrompt { activeRun := none, shapes := [] }
        { runId := 0, rands := [], responses := [Except.error ()] }).outcome
      = .rejectedError
    ∧ (processPrompt { activeRun := none, shapes := [] }
        { runId := 0, rands := [], responses := [Except.error ()]
        }).startedRun = true := by
  refine ⟨?_, ?_, ?_⟩ <;> decide

end SessionBackend
